import Mathlib

/-!
Shallow embedding of the minikube cluster-lifecycle orchestrator
(repository dchapkine/import-test-minikube) and proofs about it.

Each Go function relevant to the verified properties is translated into a
Lean definition.  Outcomes of calls that cross a process boundary (remote
commands, probes, the filesystem) are supplied by explicit environment
records, and the guest-visible behaviour of an operation is captured as a
trace of effect events, so that control flow, effect ordering and result
values can be reasoned about exactly as the Go source produces them.
-/

namespace Minikube

/-- The libmachine machine-state enumeration
(pkg/libmachine/libmachine/state). -/
inductive MachineState
  | noneState
  | stopped
  | starting
  | running
  | paused
  | stopping
  | errored
  deriving DecidableEq, Repr

namespace SSHDriver

/-- `defaultTimeout` of the ssh driver (pkg/drivers/ssh/ssh.go): 15 seconds. -/
def defaultTimeoutSeconds : Nat := 15

/-- Environment for `GetMachineState`: whether a TCP dial to the machine
address succeeds within a given timeout (in seconds). -/
structure DialEnv where
  dialSucceedsWithin : Nat → Bool

/-- `Driver.GetMachineState` of the ssh driver (pkg/drivers/ssh/ssh.go):
dial the SSH address with `defaultTimeout`; any dial error yields
`(Stopped, nil)`, success yields `(Running, nil)`. -/
def GetMachineState (e : DialEnv) : MachineState × Option String :=
  if e.dialSucceedsWithin defaultTimeoutSeconds then
    (MachineState.running, Option.none)
  else
    (MachineState.stopped, Option.none)

end SSHDriver

namespace NodePkg

/-- A node of the cluster configuration (pkg/minikube/config.Node),
restricted to the fields `node.Add` touches. -/
structure Node where
  name : String
  kubernetesVersion : String
  controlPlane : Bool
  worker : Bool
  deriving DecidableEq, Repr

/-- The Kubernetes sub-config of a machine config, restricted to the
version field `node.Add` reads. -/
structure KubernetesConfig where
  kubernetesVersion : String
  deriving DecidableEq, Repr

/-- The cluster (machine) configuration `node.Add` appends to. -/
structure MachineConfig where
  kubernetesConfig : KubernetesConfig
  nodes : List Node
  deriving DecidableEq, Repr

/-- `node.Add` (pkg/minikube/node/node.go): builds the node literal with
`Worker: true`, then conditionally sets `ControlPlane`, redundantly
re-sets `Worker` when the argument is true, picks the Kubernetes version,
and appends the node to `cc.Nodes`.  The returned value is the
configuration handed to `config.SaveProfile`. -/
def Add (cc : MachineConfig) (name : String) (controlPlane : Bool)
    (worker : Bool) (k8sVersion : String) : MachineConfig :=
  let n0 : Node :=
    { name := name, worker := true, controlPlane := false,
      kubernetesVersion := "" }
  let n1 := if controlPlane then { n0 with controlPlane := true } else n0
  let n2 := if worker then { n1 with worker := true } else n1
  let n3 :=
    if k8sVersion ≠ "" then { n2 with kubernetesVersion := k8sVersion }
    else { n2 with kubernetesVersion := cc.kubernetesConfig.kubernetesVersion }
  { cc with nodes := cc.nodes ++ [n3] }

end NodePkg

namespace Kubeadm

/-- Guest-visible effects of the kubeadm bootstrapper
(pkg/minikube/bootstrapper/kubeadm/kubeadm.go), one constructor per
remote command or probe the bootstrapper issues. -/
inductive GuestCmd
  | unpauseScan
  | testLegacyEtcd
  | lnCompatSymlink
  | diffKubeadmConf
  | probeAPIServerStatus
  | probeAppsRunning
  | probeVersionMatch
  | probeNodeConditions
  | clearStaleConfig
  | cpKubeadmConf
  | kubeadmInitRun
  | phaseCerts
  | phaseKubeconfig
  | phaseControlPlane
  | phaseEtcd
  | phaseAddon
  | kubeadmReset
  | postInitTasks
  | waitApiProc
  | waitApiHealth
  | waitSystemPods
  | adjustLimits
  deriving DecidableEq, Repr

/-- The kubeadm phase commands of `restartCluster` (certs, kubeconfig,
control-plane, etcd, addon). -/
def isKubeadmPhase : GuestCmd → Bool
  | GuestCmd.phaseCerts => true
  | GuestCmd.phaseKubeconfig => true
  | GuestCmd.phaseControlPlane => true
  | GuestCmd.phaseEtcd => true
  | GuestCmd.phaseAddon => true
  | _ => false

/-- Commands that mutate guest state (as opposed to read-only tests,
diffs and probes).  `lnCompatSymlink` creates a symlink, `clearStaleConfig`
may remove kubeconfig files, `cpKubeadmConf` overwrites the kubeadm
config, `unpauseScan` may unpause containers, and the kubeadm and
post-init commands reconfigure the control plane. -/
def mutatesGuest : GuestCmd → Bool
  | GuestCmd.unpauseScan => true
  | GuestCmd.lnCompatSymlink => true
  | GuestCmd.clearStaleConfig => true
  | GuestCmd.cpKubeadmConf => true
  | GuestCmd.kubeadmInitRun => true
  | GuestCmd.phaseCerts => true
  | GuestCmd.phaseKubeconfig => true
  | GuestCmd.phaseControlPlane => true
  | GuestCmd.phaseEtcd => true
  | GuestCmd.phaseAddon => true
  | GuestCmd.kubeadmReset => true
  | GuestCmd.postInitTasks => true
  | _ => false

/-- Modelled from the spec: the app list of `kverify.ExpectAppsRunning`
(package kverify is absent from the sources; only its caller `needsReset`
is present).  The expected control-plane apps are kube-apiserver,
kube-scheduler, kube-controller-manager, etcd, kube-proxy and dns. -/
def AppsRunningList : List String :=
  ["kube-apiserver", "kube-scheduler", "kube-controller-manager",
   "etcd", "kube-proxy", "dns"]

/-- Environment supplying the outcome of every call of the bootstrapper
that crosses a process boundary. -/
structure Env where
  /-- `util.ParseKubernetesVersion` succeeds. -/
  versionParses : Bool
  /-- `cruntime.New` succeeds. -/
  cruntimeOk : Bool
  /-- `bsutil.ExistingConfig` reports existing config files on the guest. -/
  existingConfig : Bool
  /-- `sudo test -d /data/minikube` succeeds (legacy etcd dir exists). -/
  legacyEtcdExists : Bool
  /-- `config.PrimaryControlPlane` succeeds. -/
  primaryCPOk : Bool
  /-- `driver.ControlPaneEndpoint` succeeds. -/
  endpointOk : Bool
  /-- `k.client` succeeds. -/
  clientOk : Bool
  /-- `sudo diff -u conf conf.new` exits non-zero (configs differ). -/
  confsDiffer : Bool
  /-- `kverify.APIServerStatus`: an error, or the probed state. -/
  apiStatus : Except Unit MachineState
  /-- Whether a given control-plane app is observed running. -/
  appRunning : String → Bool
  /-- `kverify.APIServerVersionMatch` succeeds. -/
  versionMatches : Bool
  /-- `kverify.NodePressure` node-conditions check succeeds. -/
  nodeConditionsOk : Bool
  /-- The `grep endpoint || rm -f` commands of `clearStaleConfigs` all succeed. -/
  clearStaleOk : Bool
  /-- `sudo cp conf.new conf` succeeds. -/
  cpConfOk : Bool
  /-- `kubeadm ... phase certs all` succeeds. -/
  phaseCertsOk : Bool
  /-- `kubeadm ... phase kubeconfig all` succeeds. -/
  phaseKubeconfigOk : Bool
  /-- `kubeadm ... phase control-plane all` succeeds. -/
  phaseCPOk : Bool
  /-- `kubeadm ... phase etcd local` succeeds. -/
  phaseEtcdOk : Bool
  /-- `kverify.WaitForAPIServerProcess` succeeds. -/
  waitProcOk : Bool
  /-- `kverify.WaitForHealthyAPIServer` succeeds. -/
  waitHealthOk : Bool
  /-- `kverify.WaitForSystemPods` succeeds. -/
  waitPodsOk : Bool
  /-- The retried `kubeadm init phase addon all` eventually succeeds. -/
  addonOk : Bool
  /-- Outcome of the n-th `kubeadm init` invocation of a StartCluster call. -/
  initOutcome : Nat → Bool

/-- Modelled from the spec: `kverify.ExpectAppsRunning` (absent from the
sources) succeeds iff every app of `AppsRunningList` is running. -/
def ExpectAppsRunning (e : Env) : Bool :=
  AppsRunningList.all e.appRunning

/-- `createCompatSymlinks` (kubeadm.go): probe the legacy etcd dir; when
present, create the compat symlink (a failure of `ln` is only logged, and
the function result is ignored by its caller). -/
def createCompatSymlinks (e : Env) : List GuestCmd :=
  if e.legacyEtcdExists then
    [GuestCmd.testLegacyEtcd, GuestCmd.lnCompatSymlink]
  else
    [GuestCmd.testLegacyEtcd]

/-- `clearStaleConfigs` (kubeadm.go): look up the primary control plane,
then run a `grep endpoint || sudo rm -f` command for each of the four
kubeconfig paths, stopping at the first failure. -/
def clearStaleConfigs (e : Env) : Option String × List GuestCmd :=
  if ¬ e.primaryCPOk then (some "primary control plane", [])
  else if e.clearStaleOk then
    (none, List.replicate 4 GuestCmd.clearStaleConfig)
  else (some "rm", [GuestCmd.clearStaleConfig])

/-- `needsReset` (kubeadm.go): reconfigure iff the configs differ, or the
apiserver status probe errors or is not Running, or the expected apps are
not all running, or the apiserver version differs, or the node-conditions
check fails.  Returns the decision together with the probe trace. -/
def needsReset (e : Env) : Bool × List GuestCmd :=
  let tr := [GuestCmd.diffKubeadmConf]
  if e.confsDiffer then (true, tr)
  else
    let tr := tr ++ [GuestCmd.probeAPIServerStatus]
    match e.apiStatus with
    | Except.error _ => (true, tr)
    | Except.ok st =>
      if st ≠ MachineState.running then (true, tr)
      else
        let tr := tr ++ [GuestCmd.probeAppsRunning]
        if ¬ ExpectAppsRunning e then (true, tr)
        else
          let tr := tr ++ [GuestCmd.probeVersionMatch]
          if ¬ e.versionMatches then (true, tr)
          else
            let tr := tr ++ [GuestCmd.probeNodeConditions]
            if ¬ e.nodeConditionsOk then (true, tr)
            else (false, tr)

/-- `init` (kubeadm.go), the n-th invocation within one StartCluster
call: parse the version, build the runtime manager, clear stale configs,
run `kubeadm init`, and on success run the three post-init tasks (RBAC,
node labels, ulimits — their failures are only logged). -/
def kubeadmInit (e : Env) (callIdx : Nat) : Option String × List GuestCmd :=
  if ¬ e.versionParses then (some "parsing kubernetes version", [])
  else if ¬ e.cruntimeOk then (some "new cruntime", [])
  else
    match clearStaleConfigs e with
    | (some _, tr) => (some "clearing stale configs", tr)
    | (none, tr) =>
      if ¬ e.initOutcome callIdx then
        (some "run", tr ++ [GuestCmd.kubeadmInitRun])
      else
        (none, tr ++ [GuestCmd.kubeadmInitRun, GuestCmd.postInitTasks])

/-- A sequential runner for guest actions: each entry carries its success,
the error-wrap message used on failure, and the commands it issues (a
failing entry still issues its commands before erroring, matching
`RunCmd`-then-check in the source; an entry that fails before issuing any
command carries `[]`). -/
def runSeq : List (Bool × String × List GuestCmd) → List GuestCmd →
    Option String × List GuestCmd
  | [], tr => (none, tr)
  | (ok, msg, cs) :: rest, tr =>
    if ok then runSeq rest (tr ++ cs) else (some msg, tr ++ cs)

/-- The sequential actions of the reset tail of `restartCluster`
(kubeadm.go) after `clearStaleConfigs`, in source order: copy conf.new
over conf, the four kubeadm phase commands run one at a time (each
wrapped "run"), `cruntime.New` (no guest command), the apiserver-process,
apiserver-health and system-pods waits, the retried addon phase, and the
always-attempted resource-limit adjustment whose failure is only
logged. -/
def resetSeqSteps (e : Env) : List (Bool × String × List GuestCmd) :=
  [(e.cpConfOk, "cp", [GuestCmd.cpKubeadmConf]),
   (e.phaseCertsOk, "run", [GuestCmd.phaseCerts]),
   (e.phaseKubeconfigOk, "run", [GuestCmd.phaseKubeconfig]),
   (e.phaseCPOk, "run", [GuestCmd.phaseControlPlane]),
   (e.phaseEtcdOk, "run", [GuestCmd.phaseEtcd]),
   (e.cruntimeOk, "runtime", []),
   (e.waitProcOk, "apiserver healthz", [GuestCmd.waitApiProc]),
   (e.waitHealthOk, "apiserver health", [GuestCmd.waitApiHealth]),
   (e.waitPodsOk, "system pods", [GuestCmd.waitSystemPods]),
   (e.addonOk, "addons", [GuestCmd.phaseAddon]),
   (true, "", [GuestCmd.adjustLimits])]

/-- The reset tail of `restartCluster` (kubeadm.go), entered when
`needsReset` reported true: clear stale configs, then the sequential
actions of `resetSeqSteps`.  `tr` is the trace accumulated so far. -/
def restartResetPath (e : Env) (tr : List GuestCmd) :
    Option String × List GuestCmd :=
  match clearStaleConfigs e with
  | (some _, ctr) => (some "clearing stale configs", tr ++ ctr)
  | (none, ctr) => runSeq (resetSeqSteps e) (tr ++ ctr)

/-- `restartCluster` (kubeadm.go): parse the version, create compat
symlinks (failure only logged), resolve the control-plane endpoint and
client, and consult `needsReset`; when no reset is needed, return success
at once, otherwise run the reset tail. -/
def restartCluster (e : Env) : Option String × List GuestCmd :=
  if ¬ e.versionParses then (some "parsing kubernetes version", [])
  else
    let tr := createCompatSymlinks e
    if ¬ e.primaryCPOk then (some "primary control plane", tr)
    else if ¬ e.endpointOk then (some "control plane", tr)
    else if ¬ e.clientOk then (some "getting k8s client", tr)
    else
      let nr := needsReset e
      let tr := tr ++ nr.2
      if nr.1 = false then (none, tr)
      else restartResetPath e tr

/-- The fall-through tail of `StartCluster` (kubeadm.go): copy conf.new
over conf, run `init`; on failure delete the cluster (failure only
logged) and run `init` once more, returning the second result. -/
def initRetryPath (e : Env) (firstIdx : Nat) : Option String × List GuestCmd :=
  if ¬ e.cpConfOk then (some "cp", [GuestCmd.cpKubeadmConf])
  else
    let tr := [GuestCmd.cpKubeadmConf]
    let r1 := kubeadmInit e firstIdx
    match r1.1 with
    | none => (none, tr ++ r1.2)
    | some _ =>
      let tr := tr ++ r1.2 ++ [GuestCmd.kubeadmReset]
      let r2 := kubeadmInit e (firstIdx + 1)
      (r2.1, tr ++ r2.2)

/-- `StartCluster` (kubeadm.go): unpause lingering components (failure
only logged); when existing config files are found, attempt
`restartCluster` and return on success, otherwise delete the cluster
(failure only logged) and fall through to the init path. -/
def StartCluster (e : Env) : Option String × List GuestCmd :=
  let tr := [GuestCmd.unpauseScan]
  if e.existingConfig then
    let r := restartCluster e
    let tr := tr ++ r.2
    match r.1 with
    | none => (none, tr)
    | some _ =>
      let tr := tr ++ [GuestCmd.kubeadmReset]
      let f := initRetryPath e 0
      (f.1, tr ++ f.2)
  else
    let f := initRetryPath e 0
    (f.1, tr ++ f.2)

end Kubeadm

namespace Runner

/-- Outcome of running the remote command on an SSH session
(`Session.Run` / `Session.Wait` in serial.go): clean exit, an exit error
carrying the remote exit code, or a transport-level error that carries no
exit status. -/
inductive SSHRunOutcome
  | success
  | exitErr (code : Nat)
  | transportErr
  deriving DecidableEq, Repr

/-- The `RunResult` produced by a Runner, restricted to the exit-code
field the claims are about.  In Go the struct is zero-initialised, so
`ExitCode` starts at 0. -/
structure RunResult where
  exitCode : Nat
  deriving DecidableEq, Repr

/-- Error kinds a Runner call can return. -/
inductive RunErr
  | stdinUnsupported
  | sessionErr
  | concurrent
  | cmdErr
  deriving DecidableEq, Repr

/-- Environment for one `SSHRunner.RunCmd` call. -/
structure RunEnv where
  /-- `cmd.Stdin != nil`. -/
  stdinPresent : Bool
  /-- `s.session()` succeeds. -/
  sessionOk : Bool
  /-- Outcome of `teeSSH` running the command on the session. -/
  runOutcome : SSHRunOutcome
  deriving DecidableEq, Repr

/-- `SSHRunner.RunCmd` (serial.go): reject stdin, allocate a
zero-initialised RunResult, open a session (on failure the zeroed result
is returned together with the wrapped error), run the command, record the
exit code only when the error is an exit error, and return the result
with nil or a wrapped non-nil error. -/
def RunCmd (e : RunEnv) : Option RunResult × Option RunErr :=
  if e.stdinPresent then (none, some RunErr.stdinUnsupported)
  else
    let rr : RunResult := { exitCode := 0 }
    if ¬ e.sessionOk then (some rr, some RunErr.sessionErr)
    else
      match e.runOutcome with
      | SSHRunOutcome.success => (some rr, none)
      | SSHRunOutcome.exitErr c => (some { exitCode := c }, some RunErr.cmdErr)
      | SSHRunOutcome.transportErr => (some rr, some RunErr.cmdErr)

/-- A `RunCmd` environment whose session establishment fails: a
transport-level failure in which the remote process never ran. -/
def transportFailEnv : RunEnv :=
  { stdinPresent := false, sessionOk := false,
    runOutcome := SSHRunOutcome.success }

/-- The `s.S != nil` component of an `SSHRunner`: whether a started
command is outstanding. -/
structure RunnerState where
  outstanding : Bool
  deriving DecidableEq, Repr

/-- Events of the StartCmd/WaitCmd pair. -/
inductive StartEv
  | newSession
  | remoteStart
  | sessionWait
  | pumpJoinStdout
  | pumpJoinStderr
  | sessionClose
  deriving DecidableEq, Repr

/-- Environment for one `SSHRunner.StartCmd` call. -/
structure StartEnv where
  stdinPresent : Bool
  sessionOk : Bool
  /-- `StdoutPipe`/`StderrPipe` of `teeSSHStart` succeed. -/
  pipesOk : Bool
  /-- `Session.Start` succeeds. -/
  startOk : Bool
  deriving DecidableEq, Repr

/-- `SSHRunner.StartCmd` (serial.go): reject stdin; reject a second start
while `s.S != nil` without touching the guest; otherwise open a session,
record it in `s.S`, install the two output pumps and start the remote
command. -/
def StartCmd (st : RunnerState) (e : StartEnv) :
    RunnerState × Option RunErr × List StartEv :=
  if e.stdinPresent then (st, some RunErr.stdinUnsupported, [])
  else if st.outstanding then (st, some RunErr.concurrent, [])
  else if ¬ e.sessionOk then (st, some RunErr.sessionErr, [StartEv.newSession])
  else
    let st : RunnerState := { outstanding := true }
    if ¬ e.pipesOk then (st, some RunErr.cmdErr, [StartEv.newSession])
    else
      (st, if e.startOk then none else some RunErr.cmdErr,
        [StartEv.newSession, StartEv.remoteStart])

/-- Environment for one `SSHRunner.WaitCmd` call. -/
structure WaitEnv where
  waitOutcome : SSHRunOutcome
  deriving DecidableEq, Repr

/-- `SSHRunner.WaitCmd` (serial.go): error when no command is started;
otherwise wait on the session, record the exit code only for exit
errors, join both output pumps (`sc.wg.Wait()` waits for the stdout and
stderr pump tasks), close the session and clear `s.S` before returning
the RunResult. -/
def WaitCmd (st : RunnerState) (e : WaitEnv) :
    RunnerState × Option (RunResult × Option RunErr) × List StartEv :=
  if ¬ st.outstanding then (st, none, [])
  else
    let code := match e.waitOutcome with
      | SSHRunOutcome.exitErr c => c
      | _ => 0
    let err : Option RunErr := match e.waitOutcome with
      | SSHRunOutcome.success => none
      | _ => some RunErr.cmdErr
    (⟨false⟩, some ({ exitCode := code }, err),
      [StartEv.sessionWait, StartEv.pumpJoinStdout, StartEv.pumpJoinStderr,
       StartEv.sessionClose])

/-- A file asset passed to `CopyFile`, restricted to its length. -/
structure FileAsset where
  length : Nat
  deriving DecidableEq, Repr

/-- Events of a `CopyFile` call. -/
inductive CopyEv
  | hashCheck
  | newSession
  | scpTransfer
  deriving DecidableEq, Repr

/-- Environment for one `SSHRunner.CopyFile` call. -/
structure CopyEnv where
  /-- Modelled from the spec: outcome of `fileExists` (absent from the
  sources; only its caller `CopyFile` is present) — it checks a sha256 of
  the destination via `stat` + `sha256sum` and reports whether the
  destination already holds identical content; an error means no match
  could be established. -/
  destHashMatches : Except Unit Bool
  sessionOk : Bool
  /-- The scp command and data copy succeed. -/
  scpOk : Bool

/-- Modelled from the spec: `fileExists` — returns whether the content
hash of the destination matches, reporting `false` alongside the error
when the check itself fails. -/
def fileExists (e : CopyEnv) : Bool × Bool :=
  match e.destHashMatches with
  | Except.error _ => (false, true)
  | Except.ok b => (b, false)

/-- The transfer body of `CopyFile`: open a session and run the scp
protocol, with its trace appended to `tr`. -/
def copyBody (e : CopyEnv) (tr : List CopyEv) : Option RunErr × List CopyEv :=
  if ¬ e.sessionOk then (some RunErr.sessionErr, tr ++ [CopyEv.newSession])
  else if ¬ e.scpOk then
    (some RunErr.cmdErr, tr ++ [CopyEv.newSession, CopyEv.scpTransfer])
  else (none, tr ++ [CopyEv.newSession, CopyEv.scpTransfer])

/-- `SSHRunner.CopyFile` (serial.go): only for files strictly larger than
2048 bytes, consult `fileExists` on the destination (a check error is
only logged) and skip the transfer when it reports a match; otherwise
transfer over the scp protocol. -/
def CopyFile (f : FileAsset) (e : CopyEnv) : Option RunErr × List CopyEv :=
  if f.length > 2048 then
    if (fileExists e).1 then (none, [CopyEv.hashCheck])
    else copyBody e [CopyEv.hashCheck]
  else copyBody e []

/-- A `CopyFile` call is a skip when it reports success without having
issued the scp transfer. -/
def CopyFileSkipped (f : FileAsset) (e : CopyEnv) : Prop :=
  (CopyFile f e).1 = none ∧ CopyEv.scpTransfer ∉ (CopyFile f e).2

/-- A `RunCmd` environment in which the remote process exits with code 3. -/
def exitErr3Env : RunEnv :=
  { stdinPresent := false, sessionOk := true,
    runOutcome := SSHRunOutcome.exitErr 3 }

/-- A runner with an outstanding started command. -/
def busyRunner : RunnerState := { outstanding := true }

/-- A fault-free `StartCmd` environment. -/
def startEnvOk : StartEnv :=
  { stdinPresent := false, sessionOk := true, pipesOk := true,
    startOk := true }

/-- A `WaitCmd` environment whose remote command exits cleanly. -/
def waitEnvOk : WaitEnv := { waitOutcome := SSHRunOutcome.success }

/-- A fault-free `CopyFile` environment whose destination hash matches. -/
def copyEnvMatch : CopyEnv :=
  { destHashMatches := Except.ok true, sessionOk := true, scpOk := true }

/-- A file one byte over the 2048-byte skip-check threshold. -/
def bigFile : FileAsset := { length := 2049 }

/-- A file exactly at the 2048-byte threshold. -/
def smallFile : FileAsset := { length := 2048 }

end Runner

namespace Machine

/-- The steps of `LocalClient.Create` (pkg/minikube/machine/client.go), in
source order. -/
inductive CreateStep
  | certs
  | precreate
  | saving
  | creating
  | waiting
  | provisioning
  deriving DecidableEq, Repr

/-- The `name` field of each step literal in `LocalClient.Create`, used to
wrap the step's error. -/
def stepName : CreateStep → String
  | CreateStep.certs => "bootstrapping certificates"
  | CreateStep.precreate => "precreate"
  | CreateStep.saving => "saving"
  | CreateStep.creating => "creating"
  | CreateStep.waiting => "waiting"
  | CreateStep.provisioning => "provisioning"

/-- The timeout passed to `api.flock.LockWithTimeout` in the certificate
step: 5 seconds. -/
def lockTimeoutSeconds : Nat := 5

/-- Events of a `LocalClient.Create` call. -/
inductive CreateEv
  | lockAcquire (timeoutSeconds : Nat)
  | certBootstrap
  | lockRelease
  | preCreateCheck
  | saveHost
  | createMachine
  | waitForRunning
  | provision
  deriving DecidableEq, Repr

/-- Environment for one `LocalClient.Create` call. -/
structure CreateEnv where
  /-- `flock.LockWithTimeout(5s)` succeeds. -/
  lockOk : Bool
  /-- `cert.BootstrapCertificates` succeeds. -/
  certsOk : Bool
  /-- `Driver.PreCreateCheck` succeeds. -/
  precreateOk : Bool
  /-- `api.Save(h)` succeeds. -/
  saveOk : Bool
  /-- `Driver.CreateMachine` succeeds. -/
  createOk : Bool
  /-- `driver.BareMetal(h.Driver.DriverName())`. -/
  bareMetal : Bool
  /-- `mcnutils.WaitFor(MachineInState(Running))` succeeds. -/
  waitOk : Bool
  /-- `provisionMachine(h)` succeeds. -/
  provisionOk : Bool
  deriving DecidableEq, Repr

/-- One step of `LocalClient.Create`: its success and its events.  The
certificate step acquires the exclusive file lock with the 5-second
timeout around the bootstrap; the waiting step is skipped for bare-metal
drivers. -/
def runStep (e : CreateEnv) : CreateStep → Bool × List CreateEv
  | CreateStep.certs =>
    if ¬ e.lockOk then (false, [CreateEv.lockAcquire lockTimeoutSeconds])
    else (e.certsOk,
      [CreateEv.lockAcquire lockTimeoutSeconds, CreateEv.certBootstrap,
       CreateEv.lockRelease])
  | CreateStep.precreate => (e.precreateOk, [CreateEv.preCreateCheck])
  | CreateStep.saving => (e.saveOk, [CreateEv.saveHost])
  | CreateStep.creating => (e.createOk, [CreateEv.createMachine])
  | CreateStep.waiting =>
    if e.bareMetal then (true, []) else (e.waitOk, [CreateEv.waitForRunning])
  | CreateStep.provisioning => (e.provisionOk, [CreateEv.provision])

/-- The fixed step order of `LocalClient.Create`. -/
def createStepsOrder : List CreateStep :=
  [CreateStep.certs, CreateStep.precreate, CreateStep.saving,
   CreateStep.creating, CreateStep.waiting, CreateStep.provisioning]

/-- The step loop of `LocalClient.Create`: run each step in order,
aborting at the first failure with the error wrapped with the step's
name. -/
def runSteps (e : CreateEnv) : List CreateStep → Option String × List CreateEv
  | [] => (none, [])
  | s :: rest =>
    let r := runStep e s
    if r.1 then
      let k := runSteps e rest
      (k.1, r.2 ++ k.2)
    else (some (stepName s ++ ": error"), r.2)

/-- `LocalClient.Create` (client.go): the fixed step sequence. -/
def Create (e : CreateEnv) : Option String × List CreateEv :=
  runSteps e createStepsOrder

/-- A fault-free `Create` environment for a non-bare-metal driver. -/
def createEnvOk : CreateEnv :=
  { lockOk := true, certsOk := true, precreateOk := true, saveOk := true,
    createOk := true, bareMetal := false, waitOk := true,
    provisionOk := true }

end Machine

namespace Delete

/-- The exit status of a CLI command run. -/
inductive ExitStatus
  | success
  | failure (msg : String)
  deriving DecidableEq, Repr

/-- The on-disk world `runDelete` observes and mutates. -/
structure World where
  /-- The libmachine host of the profile exists. -/
  hostExists : Bool
  /-- The profile directory exists. -/
  profileDirExists : Bool
  /-- `pkg_config.Load` finds a loadable profile config. -/
  profileConfigLoads : Bool
  /-- The loaded config uses the "none" driver (triggers the
  uninstall-Kubernetes path, whose failures are only logged). -/
  driverNone : Bool
  deriving DecidableEq, Repr

/-- Environment for one `runDelete` call. -/
structure DelEnv where
  /-- `machine.NewAPIClient` succeeds. -/
  apiClientOk : Bool
  /-- `cluster.DeleteHost` succeeds on an existing host (a missing host
  always yields `ErrHostDoesNotExist`, which is tolerated). -/
  deleteHostWorks : Bool
  /-- `pkgutil.DeleteKubeConfigContext` succeeds. -/
  kubeConfigUpdateOk : Bool
  deriving DecidableEq, Repr

/-- `runDelete` (cmd/minikube/cmd, delete command): load the profile
config (a missing config is tolerated); for the "none" driver attempt to
uninstall Kubernetes (failures only logged); delete the host, tolerating
`ErrHostDoesNotExist` with a "cluster does not exist" message but failing
on any other delete error; kill the mount process (failure only logged);
remove the profile directory — `os.RemoveAll` reports success for an
absent path, so the `IsNotExist` branch cannot fire; finally delete the
kubeconfig context. -/
def runDelete (e : DelEnv) (w : World) : ExitStatus × World :=
  if ¬ e.apiClientOk then (ExitStatus.failure "Error getting client", w)
  else
    let deleteHost : Except Bool Unit :=
      if w.hostExists then
        if e.deleteHostWorks then Except.ok () else Except.error true
      else Except.error false
    match deleteHost with
    | Except.error true => (ExitStatus.failure "Failed to delete cluster", w)
    | _ =>
      let w := { w with hostExists := false }
      let w := { w with profileDirExists := false, profileConfigLoads := false }
      if ¬ e.kubeConfigUpdateOk then (ExitStatus.failure "update config", w)
      else (ExitStatus.success, w)

/-- A fault-free delete environment. -/
def delEnvOk : DelEnv :=
  { apiClientOk := true, deleteHostWorks := true,
    kubeConfigUpdateOk := true }

/-- A world holding a live cluster: host, profile directory and profile
config all present. -/
def freshWorld : World :=
  { hostExists := true, profileDirExists := true,
    profileConfigLoads := true, driverNone := false }

end Delete

namespace Kubeadm

/-- A concrete healthy environment whose guest still carries the legacy
etcd directory `/data/minikube`. -/
def hotPathEnvWithLegacyEtcd : Env :=
  { versionParses := true, cruntimeOk := true, existingConfig := true,
    legacyEtcdExists := true, primaryCPOk := true, endpointOk := true,
    clientOk := true, confsDiffer := false,
    apiStatus := Except.ok MachineState.running,
    appRunning := fun _ => true, versionMatches := true,
    nodeConditionsOk := true, clearStaleOk := true, cpConfOk := true,
    phaseCertsOk := true, phaseKubeconfigOk := true, phaseCPOk := true,
    phaseEtcdOk := true, waitProcOk := true, waitHealthOk := true,
    waitPodsOk := true, addonOk := true, initOutcome := fun _ => true }

/-- The same healthy environment without the legacy etcd directory. -/
def hotPathEnv : Env :=
  { hotPathEnvWithLegacyEtcd with legacyEtcdExists := false }

/-- An environment in which the restart fails (differing configs and a
stopped apiserver) and every `kubeadm init` fails too. -/
def allInitsFailEnv : Env :=
  { hotPathEnv with
    confsDiffer := true,
    apiStatus := Except.error (),
    initOutcome := fun _ => false }

end Kubeadm

end Minikube

namespace Minikube

/-- C10: for the ssh driver, GetMachineState never returns an error, its
result is always Running or Stopped, and it is Running exactly when the
TCP dial to the SSH address succeeds within the 15-second timeout. -/
theorem sshDriver_getMachineState_running_iff_dial (e : SSHDriver.DialEnv) :
    (SSHDriver.GetMachineState e).2 = Option.none ∧
    ((SSHDriver.GetMachineState e).1 = MachineState.running ∨
      (SSHDriver.GetMachineState e).1 = MachineState.stopped) ∧
    ((SSHDriver.GetMachineState e).1 = MachineState.running ↔
      e.dialSucceedsWithin 15 = true) := by
  obtain ⟨d⟩ := e
  simp only [SSHDriver.GetMachineState, SSHDriver.defaultTimeoutSeconds]
  by_cases h : d 15 = true <;> simp [h]

/-- C9: node Add always appends a node with Worker set to true regardless
of the worker argument — the stored config for worker=false equals the one
for worker=true — while the controlPlane argument is honoured. -/
theorem nodeAdd_worker_always_true (cc : NodePkg.MachineConfig)
    (name : String) (controlPlane worker : Bool) (k8sVersion : String) :
    NodePkg.Add cc name controlPlane false k8sVersion =
      NodePkg.Add cc name controlPlane true k8sVersion ∧
    ∃ n : NodePkg.Node,
      (NodePkg.Add cc name controlPlane worker k8sVersion).nodes =
        cc.nodes ++ [n] ∧ n.worker = true ∧ n.controlPlane = controlPlane := by
  cases controlPlane <;> cases worker <;>
    by_cases h : k8sVersion ≠ "" <;>
      simp [NodePkg.Add, h]

end Minikube

namespace Minikube

open Kubeadm in
/-- Helper: the trace of `needsReset` is one of five closed probe lists. -/
theorem needsReset_trace_cases (e : Kubeadm.Env) :
    (needsReset e).2 = [GuestCmd.diffKubeadmConf] ∨
    (needsReset e).2 =
      [GuestCmd.diffKubeadmConf, GuestCmd.probeAPIServerStatus] ∨
    (needsReset e).2 =
      [GuestCmd.diffKubeadmConf, GuestCmd.probeAPIServerStatus,
       GuestCmd.probeAppsRunning] ∨
    (needsReset e).2 =
      [GuestCmd.diffKubeadmConf, GuestCmd.probeAPIServerStatus,
       GuestCmd.probeAppsRunning, GuestCmd.probeVersionMatch] ∨
    (needsReset e).2 =
      [GuestCmd.diffKubeadmConf, GuestCmd.probeAPIServerStatus,
       GuestCmd.probeAppsRunning, GuestCmd.probeVersionMatch,
       GuestCmd.probeNodeConditions] := by
  unfold Kubeadm.needsReset
  cases hst : e.apiStatus <;> simp only [hst] <;> split_ifs <;> simp

open Kubeadm in
/-- Helper: the result/trace pairs `clearStaleConfigs` can produce. -/
theorem clearStaleConfigs_cases (e : Kubeadm.Env) :
    clearStaleConfigs e = (some "primary control plane", []) ∨
    clearStaleConfigs e =
      (none, List.replicate 4 GuestCmd.clearStaleConfig) ∨
    clearStaleConfigs e = (some "rm", [GuestCmd.clearStaleConfig]) := by
  unfold Kubeadm.clearStaleConfigs
  split_ifs <;> simp

/-- C2: needsReset returns true iff the configs differ, or the apiserver
status probe errors or reports a state other than Running, or not all
expected control-plane apps are running, or the apiserver version
mismatches, or the node-conditions check fails. -/
theorem needsReset_true_iff (e : Kubeadm.Env) :
    (Kubeadm.needsReset e).1 = true ↔
      (e.confsDiffer = true ∨
        e.apiStatus = Except.error () ∨
        (∃ st, e.apiStatus = Except.ok st ∧ st ≠ MachineState.running) ∨
        ¬ (∀ app ∈ Kubeadm.AppsRunningList, e.appRunning app = true) ∨
        e.versionMatches = false ∨
        e.nodeConditionsOk = false) := by
  unfold Kubeadm.needsReset Kubeadm.ExpectAppsRunning
  cases hst : e.apiStatus with
  | error u =>
    cases u
    split_ifs <;> simp_all [List.all_eq_true]
  | ok st =>
    by_cases hrun : st = MachineState.running
    · subst hrun
      split_ifs <;> simp_all [List.all_eq_true]
    · split_ifs <;> simp_all [List.all_eq_true]

end Minikube

namespace Minikube

open Kubeadm in
/-- Helper: the compat-symlink trace holds only the test and the symlink
command. -/
theorem compat_trace_no_init (e : Kubeadm.Env) :
    GuestCmd.kubeadmInitRun ∉ createCompatSymlinks e ∧
    GuestCmd.kubeadmReset ∉ createCompatSymlinks e := by
  unfold Kubeadm.createCompatSymlinks
  split_ifs <;> decide

open Kubeadm in
/-- Helper: the probe trace of `needsReset` holds neither an init nor a
reset. -/
theorem needsReset_trace_no_init (e : Kubeadm.Env) :
    GuestCmd.kubeadmInitRun ∉ (needsReset e).2 ∧
    GuestCmd.kubeadmReset ∉ (needsReset e).2 := by
  rcases needsReset_trace_cases e with h | h | h | h | h <;> rw [h] <;> decide

open Kubeadm in
/-- Helper: a command never issued by any step of a sequence and absent
from the accumulated trace is absent from the sequence's trace. -/
theorem runSeq_not_mem (c : GuestCmd)
    (steps : List (Bool × String × List GuestCmd)) (tr : List GuestCmd)
    (hc : c ∉ tr) (hs : ∀ s ∈ steps, c ∉ s.2.2) :
    c ∉ (runSeq steps tr).2 := by
  induction steps generalizing tr with
  | nil => simpa [Kubeadm.runSeq] using hc
  | cons s rest ih =>
    obtain ⟨ok, msg, cs⟩ := s
    have hcs : c ∉ cs := hs (ok, msg, cs) (by simp)
    simp only [Kubeadm.runSeq]
    split_ifs
    · exact ih (tr ++ cs) (List.not_mem_append hc hcs)
        (fun s hmem => hs s (by simp [hmem]))
    · exact List.not_mem_append hc hcs

open Kubeadm in
/-- Helper: the reset tail of `restartCluster` adds no init invocation and
no cluster reset to the accumulated trace. -/
theorem restartResetPath_no_init (e : Kubeadm.Env) (tr : List GuestCmd)
    (h1 : GuestCmd.kubeadmInitRun ∉ tr) (h2 : GuestCmd.kubeadmReset ∉ tr) :
    GuestCmd.kubeadmInitRun ∉ (restartResetPath e tr).2 ∧
    GuestCmd.kubeadmReset ∉ (restartResetPath e tr).2 := by
  have hsteps : ∀ s ∈ Kubeadm.resetSeqSteps e,
      GuestCmd.kubeadmInitRun ∉ s.2.2 ∧ GuestCmd.kubeadmReset ∉ s.2.2 := by
    intro s hmem
    simp only [Kubeadm.resetSeqSteps, List.mem_cons,
      List.not_mem_nil, or_false] at hmem
    rcases hmem with h | h | h | h | h | h | h | h | h | h | h <;>
      subst h <;> exact ⟨by simp, by simp⟩
  rcases clearStaleConfigs_cases e with h | h | h <;>
    simp only [Kubeadm.restartResetPath, h]
  · exact ⟨List.not_mem_append h1 (by decide),
           List.not_mem_append h2 (by decide)⟩
  · exact ⟨runSeq_not_mem _ _ _ (List.not_mem_append h1 (by decide))
             (fun s hm => (hsteps s hm).1),
           runSeq_not_mem _ _ _ (List.not_mem_append h2 (by decide))
             (fun s hm => (hsteps s hm).2)⟩
  · exact ⟨List.not_mem_append h1 (by decide),
           List.not_mem_append h2 (by decide)⟩

open Kubeadm in
/-- Helper: the trace of `restartCluster` never contains a `kubeadm init`
invocation nor a cluster reset. -/
theorem restart_trace_no_init (e : Kubeadm.Env) :
    GuestCmd.kubeadmInitRun ∉ (restartCluster e).2 ∧
    GuestCmd.kubeadmReset ∉ (restartCluster e).2 := by
  have hco := compat_trace_no_init e
  have hnr := needsReset_trace_no_init e
  have hres := restartResetPath_no_init e
    (createCompatSymlinks e ++ (needsReset e).2)
    (List.not_mem_append hco.1 hnr.1)
    (List.not_mem_append hco.2 hnr.2)
  simp only [Kubeadm.restartCluster]
  split_ifs <;>
    first
      | exact hres
      | exact ⟨List.not_mem_append hco.1 hnr.1,
               List.not_mem_append hco.2 hnr.2⟩
      | exact hco
      | decide

/-- C3 (amended): when execution reaches `needsReset` and it reports
false, restartCluster returns success, runs no kubeadm phase command,
does not clear stale configs, does not copy conf.new over conf, and the
only possibly guest-mutating command on this hot path is the legacy-etcd
compat symlink. -/
theorem restartCluster_hot_path_frame (e : Kubeadm.Env)
    (hv : e.versionParses = true) (hp : e.primaryCPOk = true)
    (he : e.endpointOk = true) (hc : e.clientOk = true)
    (hn : (Kubeadm.needsReset e).1 = false) :
    (Kubeadm.restartCluster e).1 = none ∧
    (∀ c ∈ (Kubeadm.restartCluster e).2, Kubeadm.isKubeadmPhase c = false) ∧
    Kubeadm.GuestCmd.clearStaleConfig ∉ (Kubeadm.restartCluster e).2 ∧
    Kubeadm.GuestCmd.cpKubeadmConf ∉ (Kubeadm.restartCluster e).2 ∧
    (∀ c ∈ (Kubeadm.restartCluster e).2, Kubeadm.mutatesGuest c = true →
      c = Kubeadm.GuestCmd.lnCompatSymlink) := by
  have hre : Kubeadm.restartCluster e =
      (none, Kubeadm.createCompatSymlinks e ++ (Kubeadm.needsReset e).2) := by
    simp [Kubeadm.restartCluster, hv, hp, he, hc, hn]
  rw [hre]
  rcases needsReset_trace_cases e with h | h | h | h | h <;> rw [h] <;>
    simp only [Kubeadm.createCompatSymlinks] <;> split_ifs <;> decide

/-- C3 witness: the frame theorem applied to a concrete healthy
environment. -/
theorem restartCluster_hot_path_frame_witness :
    (Kubeadm.restartCluster Kubeadm.hotPathEnv).1 = none ∧
    Kubeadm.GuestCmd.clearStaleConfig ∉ (Kubeadm.restartCluster Kubeadm.hotPathEnv).2 :=
  ⟨(restartCluster_hot_path_frame Kubeadm.hotPathEnv rfl rfl rfl rfl (by decide)).1,
   (restartCluster_hot_path_frame Kubeadm.hotPathEnv rfl rfl rfl rfl (by decide)).2.2.1⟩

/-- C3 counterexample: with the legacy etcd directory present, the hot
path (needsReset false, restart succeeds) still executes the
guest-mutating `sudo ln -s` compat-symlink command, so the guest is not
left unchanged. -/
theorem restartCluster_hot_path_mutates_guest :
    (Kubeadm.needsReset Kubeadm.hotPathEnvWithLegacyEtcd).1 = false ∧
    (Kubeadm.restartCluster Kubeadm.hotPathEnvWithLegacyEtcd).1 = none ∧
    Kubeadm.GuestCmd.lnCompatSymlink ∈
      (Kubeadm.restartCluster Kubeadm.hotPathEnvWithLegacyEtcd).2 ∧
    Kubeadm.mutatesGuest Kubeadm.GuestCmd.lnCompatSymlink = true := by
  decide

end Minikube

namespace Minikube

open Kubeadm in
/-- Helper: trace shapes of one `init` invocation, by its result. -/
theorem kubeadmInit_facts (e : Kubeadm.Env) (i : Nat) :
    ((kubeadmInit e i).1 = some "run" →
      (kubeadmInit e i).2 =
        List.replicate 4 GuestCmd.clearStaleConfig ++
          [GuestCmd.kubeadmInitRun]) ∧
    ((kubeadmInit e i).1 = none →
      (kubeadmInit e i).2 =
        List.replicate 4 GuestCmd.clearStaleConfig ++
          [GuestCmd.kubeadmInitRun, GuestCmd.postInitTasks]) ∧
    ((kubeadmInit e i).1 ≠ some "run" → (kubeadmInit e i).1 ≠ none →
      (kubeadmInit e i).2.count GuestCmd.kubeadmInitRun = 0) ∧
    (kubeadmInit e i).2.count GuestCmd.kubeadmInitRun ≤ 1 ∧
    GuestCmd.kubeadmReset ∉ (kubeadmInit e i).2 := by
  rcases clearStaleConfigs_cases e with h | h | h <;>
    simp only [Kubeadm.kubeadmInit, h] <;> split_ifs <;> decide

open Kubeadm in
/-- Helper: the fall-through init path runs `kubeadm init` at most twice,
and when it does run it twice a cluster reset stands between the two
invocations. -/
theorem initRetryPath_facts (e : Kubeadm.Env) :
    (initRetryPath e 0).2.count GuestCmd.kubeadmInitRun ≤ 2 ∧
    ((initRetryPath e 0).2.count GuestCmd.kubeadmInitRun = 2 →
      ∃ l1 l2 l3, (initRetryPath e 0).2 =
        l1 ++ [GuestCmd.kubeadmInitRun] ++ l2 ++
          [GuestCmd.kubeadmInitRun] ++ l3 ∧
        GuestCmd.kubeadmReset ∈ l2) := by
  have hf1 := kubeadmInit_facts e 0
  have hf2 := kubeadmInit_facts e 1
  simp only [Kubeadm.initRetryPath]
  by_cases hcp : e.cpConfOk = true
  case neg =>
    simp [hcp]
  case pos =>
    rw [if_neg (by simp [hcp])]
    cases h1 : (Kubeadm.kubeadmInit e 0).1 with
    | none =>
      have ht1 := hf1.2.1 h1
      simp only [h1, ht1]
      constructor
      · decide
      · intro hcnt
        exact absurd hcnt (by decide)
    | some s =>
      by_cases hs : s = "run"
      · subst hs
        have ht1 := hf1.1 h1
        cases h2 : (Kubeadm.kubeadmInit e 1).1 with
        | none =>
          have ht2 := hf2.2.1 h2
          simp only [h1, ht1, ht2]
          constructor
          · decide
          · intro _
            exact ⟨GuestCmd.cpKubeadmConf ::
                List.replicate 4 GuestCmd.clearStaleConfig,
              GuestCmd.kubeadmReset ::
                List.replicate 4 GuestCmd.clearStaleConfig,
              [GuestCmd.postInitTasks], by decide, by decide⟩
        | some s2 =>
          by_cases hs2 : s2 = "run"
          · subst hs2
            have ht2 := hf2.1 h2
            simp only [h1, ht1, ht2]
            constructor
            · decide
            · intro _
              exact ⟨GuestCmd.cpKubeadmConf ::
                  List.replicate 4 GuestCmd.clearStaleConfig,
                GuestCmd.kubeadmReset ::
                  List.replicate 4 GuestCmd.clearStaleConfig,
                [], by decide, by decide⟩
          · have hc2 : (Kubeadm.kubeadmInit e 1).2.count
                GuestCmd.kubeadmInitRun = 0 := by
              refine hf2.2.2.1 ?_ ?_ <;> simp [h2, hs2]
            have ht1 := hf1.1 h1
            simp only [h1, ht1]
            constructor
            · simp [List.count_append, hc2]
            · intro hcnt
              simp [List.count_append, hc2] at hcnt
      · have hc1 : (Kubeadm.kubeadmInit e 0).2.count
            GuestCmd.kubeadmInitRun = 0 := by
          refine hf1.2.2.1 ?_ ?_ <;> simp [h1, hs]
        have hc2le := hf2.2.2.2.1
        simp only [h1]
        constructor
        · simp [List.count_append, hc1]
          omega
        · intro hcnt
          simp [List.count_append, hc1] at hcnt
          omega

end Minikube

namespace Minikube

open Kubeadm in
/-- C1: StartCluster never re-runs a failed init directly — when existing
config is found it first attempts restartCluster and returns on success
with no init at all; at most two init invocations occur per StartCluster
call; and whenever two occur, a DeleteCluster (kubeadm reset) stands
between them. -/
theorem startCluster_bounded_init (e : Kubeadm.Env) :
    (StartCluster e).2.count GuestCmd.kubeadmInitRun ≤ 2 ∧
    (e.existingConfig = true → (restartCluster e).1 = none →
      (StartCluster e).1 = none ∧
      (StartCluster e).2.count GuestCmd.kubeadmInitRun = 0) ∧
    ((StartCluster e).2.count GuestCmd.kubeadmInitRun = 2 →
      ∃ l1 l2 l3, (StartCluster e).2 =
        l1 ++ [GuestCmd.kubeadmInitRun] ++ l2 ++
          [GuestCmd.kubeadmInitRun] ++ l3 ∧
        GuestCmd.kubeadmReset ∈ l2) := by
  have hrt := restart_trace_no_init e
  have hrc : (Kubeadm.restartCluster e).2.count GuestCmd.kubeadmInitRun = 0 :=
    List.count_eq_zero.mpr hrt.1
  have hf := initRetryPath_facts e
  simp only [Kubeadm.StartCluster]
  by_cases hex : e.existingConfig = true
  · rw [if_pos hex]
    cases hr : (Kubeadm.restartCluster e).1 with
    | none =>
      refine ⟨?_, ?_, ?_⟩
      · simp [List.count_append, hrc]
      · intro _ _
        exact ⟨rfl, by simp [List.count_append, hrc]⟩
      · intro hcnt
        simp [List.count_append, hrc] at hcnt
    | some s =>
      refine ⟨?_, ?_, ?_⟩
      · simp [List.count_append, hrc]
        exact hf.1
      · intro _ hnone
        exact absurd hnone (by simp)
      · intro hcnt
        have hcnt2 : (Kubeadm.initRetryPath e 0).2.count
            GuestCmd.kubeadmInitRun = 2 := by
          simpa [List.count_append, hrc] using hcnt
        obtain ⟨l1, l2, l3, heq, hmem⟩ := hf.2 hcnt2
        refine ⟨(GuestCmd.unpauseScan :: (Kubeadm.restartCluster e).2 ++
            [GuestCmd.kubeadmReset]) ++ l1, l2, l3, ?_, hmem⟩
        simp [heq, List.append_assoc]
  · rw [if_neg hex]
    refine ⟨?_, ?_, ?_⟩
    · simp [List.count_append]
      exact hf.1
    · intro hex2
      exact absurd hex2 hex
    · intro hcnt
      have hcnt2 : (Kubeadm.initRetryPath e 0).2.count
          GuestCmd.kubeadmInitRun = 2 := by
        simpa [List.count_append] using hcnt
      obtain ⟨l1, l2, l3, heq, hmem⟩ := hf.2 hcnt2
      refine ⟨GuestCmd.unpauseScan :: l1, l2, l3, ?_, hmem⟩
      simp [heq, List.append_assoc]

/-- C1 witness: with existing config and a healthy cluster, StartCluster
returns success via restart with zero init invocations. -/
theorem startCluster_bounded_init_witness :
    (Kubeadm.StartCluster Kubeadm.hotPathEnv).1 = none ∧
    (Kubeadm.StartCluster Kubeadm.hotPathEnv).2.count
      Kubeadm.GuestCmd.kubeadmInitRun = 0 :=
  (startCluster_bounded_init Kubeadm.hotPathEnv).2.1 rfl (by decide)

end Minikube

namespace Minikube

open Runner in
/-- C4 counterexample: when session establishment fails (a transport-level
failure in which the remote process never ran), RunCmd returns a
RunResult with ExitCode 0 together with a non-nil error, refuting
`ExitCode == 0 ⇔ err == nil`. -/
theorem runCmd_exitcode_zero_despite_error :
    (RunCmd transportFailEnv).1 = some { exitCode := 0 } ∧
    (RunCmd transportFailEnv).2 = some RunErr.sessionErr := by
  decide

open Runner in
/-- C4 (amended): a nil error implies ExitCode 0, and a remote exit error
records its code alongside a non-nil error; but on transport-level
failures (session establishment or a non-exit run error) the returned
RunResult keeps ExitCode 0 while the call returns a non-nil error, so
ExitCode 0 does not imply success. -/
theorem runCmd_exitcode (e : Runner.RunEnv) :
    ((RunCmd e).2 = none → (RunCmd e).1 = some { exitCode := 0 }) ∧
    (∀ c, e.stdinPresent = false → e.sessionOk = true →
      e.runOutcome = SSHRunOutcome.exitErr c →
      (RunCmd e).1 = some { exitCode := c } ∧ (RunCmd e).2 ≠ none) ∧
    (e.stdinPresent = false → e.sessionOk = false →
      (RunCmd e).1 = some { exitCode := 0 } ∧ (RunCmd e).2 ≠ none) ∧
    (e.stdinPresent = false → e.sessionOk = true →
      e.runOutcome = SSHRunOutcome.transportErr →
      (RunCmd e).1 = some { exitCode := 0 } ∧ (RunCmd e).2 ≠ none) := by
  obtain ⟨si, so, ro⟩ := e
  cases si <;> cases so <;> cases ro <;>
    simp [Runner.RunCmd]

/-- C4 witness: the amended theorem applied at a remote exit code 3. -/
theorem runCmd_exitcode_witness :
    (Runner.RunCmd Runner.exitErr3Env).1 = some { exitCode := 3 } ∧
    (Runner.RunCmd Runner.exitErr3Env).2 ≠ none :=
  (runCmd_exitcode Runner.exitErr3Env).2.1 3 rfl rfl rfl

open Runner in
/-- C5: a Runner has at most one outstanding started command — StartCmd
on a busy runner errors, leaves the state unchanged and starts nothing on
the guest; WaitCmd on a busy runner clears the outstanding command and
joins both output pumps (stdout and stderr) before returning its
RunResult. -/
theorem runner_single_outstanding (st : Runner.RunnerState)
    (h : st.outstanding = true) (e : Runner.StartEnv) (w : Runner.WaitEnv) :
    ((StartCmd st e).1 = st ∧ (StartCmd st e).2.1 ≠ none ∧
      StartEv.remoteStart ∉ (StartCmd st e).2.2) ∧
    ((WaitCmd st w).1.outstanding = false ∧ (WaitCmd st w).2.1 ≠ none ∧
      StartEv.pumpJoinStdout ∈ (WaitCmd st w).2.2 ∧
      StartEv.pumpJoinStderr ∈ (WaitCmd st w).2.2) := by
  obtain ⟨o⟩ := st
  cases o
  · cases h
  · cases hst : e.stdinPresent <;>
      simp [Runner.StartCmd, Runner.WaitCmd, hst]

/-- C5 witness: the theorem applied to a busy runner with a concrete
start and wait environment. -/
theorem runner_single_outstanding_witness :
    (Runner.StartCmd Runner.busyRunner Runner.startEnvOk).2.1 ≠ none ∧
    (Runner.WaitCmd Runner.busyRunner Runner.waitEnvOk).1.outstanding =
      false :=
  ⟨(runner_single_outstanding Runner.busyRunner rfl Runner.startEnvOk
      Runner.waitEnvOk).1.2.1,
   (runner_single_outstanding Runner.busyRunner rfl Runner.startEnvOk
      Runner.waitEnvOk).2.1⟩

open Runner in
/-- C6: CopyFile never consults the destination hash for files of at most
2048 bytes and never skips them; for files strictly larger than 2048
bytes it checks the destination content hash and skips the transfer
exactly when the check succeeds and reports a match. -/
theorem copyFile_skip_policy (f : Runner.FileAsset) (e : Runner.CopyEnv) :
    (f.length ≤ 2048 →
      CopyEv.hashCheck ∉ (CopyFile f e).2 ∧ ¬ CopyFileSkipped f e) ∧
    (f.length > 2048 →
      CopyEv.hashCheck ∈ (CopyFile f e).2 ∧
      (CopyFileSkipped f e ↔ e.destHashMatches = Except.ok true)) := by
  obtain ⟨dm, so, sc⟩ := e
  constructor
  · intro hl
    have hgt : ¬ f.length > 2048 := by omega
    cases so <;> cases sc <;>
      simp [Runner.CopyFileSkipped, Runner.CopyFile, Runner.copyBody, hgt]
  · intro hgt
    rcases dm with u | b
    · cases so <;> cases sc <;>
        simp [Runner.CopyFileSkipped, Runner.CopyFile, Runner.copyBody,
          Runner.fileExists, hgt]
    · cases b
      · cases so <;> cases sc <;>
          simp [Runner.CopyFileSkipped, Runner.CopyFile, Runner.copyBody,
            Runner.fileExists, hgt]
      · simp [Runner.CopyFileSkipped, Runner.CopyFile, Runner.copyBody,
          Runner.fileExists, hgt]

/-- C6 witness: a 2049-byte file with a matching destination hash is
skipped; a 2048-byte file is transferred without any hash check. -/
theorem copyFile_skip_policy_witness :
    Runner.CopyFileSkipped Runner.bigFile Runner.copyEnvMatch ∧
    Runner.CopyEv.hashCheck ∉
      (Runner.CopyFile Runner.smallFile Runner.copyEnvMatch).2 :=
  ⟨((copyFile_skip_policy Runner.bigFile Runner.copyEnvMatch).2
      (by decide)).2.mpr rfl,
   ((copyFile_skip_policy Runner.smallFile Runner.copyEnvMatch).1
      (by decide)).1⟩

end Minikube

namespace Minikube

open Machine in
/-- C7: Machine Create executes exactly its fixed step sequence —
certificate bootstrap under the exclusive 5-second-timeout file lock,
PreCreateCheck, SaveHost, CreateMachine, waiting for Running (skipped for
bare-metal drivers), provisioning — and the first failing step aborts
with an error wrapped with that step's name, with no later step
executed. -/
theorem create_fixed_steps (e : Machine.CreateEnv) :
    ((∀ s ∈ Machine.createStepsOrder, (Machine.runStep e s).1 = true) →
      Machine.Create e =
        (none, (Machine.createStepsOrder.map
          fun s => (Machine.runStep e s).2).flatten)) ∧
    (∀ i : Fin Machine.createStepsOrder.length,
      (∀ j : Fin Machine.createStepsOrder.length, j < i →
        (Machine.runStep e (Machine.createStepsOrder.get j)).1 = true) →
      (Machine.runStep e (Machine.createStepsOrder.get i)).1 = false →
      Machine.Create e =
        (some (Machine.stepName (Machine.createStepsOrder.get i) ++
            ": error"),
          ((Machine.createStepsOrder.take i).map
            fun s => (Machine.runStep e s).2).flatten ++
            (Machine.runStep e (Machine.createStepsOrder.get i)).2)) := by
  obtain ⟨l, c, p, s, cr, b, w, pr⟩ := e
  cases l <;> cases c <;> cases p <;> cases s <;> cases cr <;> cases b <;>
    cases w <;> cases pr <;> decide

/-- C7 witness: the all-steps-succeed case at a concrete environment. -/
theorem create_fixed_steps_witness :
    Machine.Create Machine.createEnvOk =
      (none, (Machine.createStepsOrder.map
        fun s => (Machine.runStep Machine.createEnvOk s).2).flatten) :=
  (create_fixed_steps Machine.createEnvOk).1 (by decide)

open Delete in
/-- C8: delete is idempotent — when a delete run exits 0, running delete
again on the resulting world exits 0 as well; and in particular a delete
of a world whose host does not exist (regardless of the profile
directory) exits 0 provided the client and kubeconfig plumbing work. -/
theorem runDelete_idempotent (e : Delete.DelEnv) (w : Delete.World)
    (h : (runDelete e w).1 = ExitStatus.success) :
    (runDelete e (runDelete e w).2).1 = ExitStatus.success ∧
    (runDelete e w).2.hostExists = false ∧
    (runDelete e w).2.profileDirExists = false ∧
    (∀ w2 : Delete.World, w2.hostExists = false →
      (runDelete e w2).1 = ExitStatus.success) := by
  obtain ⟨a, d, k⟩ := e
  obtain ⟨he, pd, pc, dn⟩ := w
  refine ⟨?_, ?_, ?_, ?_⟩ <;>
    first
      | (cases a <;> cases d <;> cases k <;> cases he <;> cases pd <;>
          cases pc <;> cases dn <;> revert h <;> decide)
      | (intro w2 hw2
         obtain ⟨he2, pd2, pc2, dn2⟩ := w2
         cases a <;> cases d <;> cases k <;> cases he <;> cases pd <;>
           cases pc <;> cases dn <;> cases he2 <;> cases pd2 <;>
             cases pc2 <;> cases dn2 <;> revert h hw2 <;> decide)

/-- C8 witness: deleting a live cluster exits 0, and deleting again on
the emptied world exits 0. -/
theorem runDelete_idempotent_witness :
    (Delete.runDelete Delete.delEnvOk
      (Delete.runDelete Delete.delEnvOk Delete.freshWorld).2).1 =
      Delete.ExitStatus.success :=
  (runDelete_idempotent Delete.delEnvOk Delete.freshWorld (by decide)).1

end Minikube
